import Mathlib

/-!
Verification of the SQLAlchemy CRUD adapter of `fastapi-crudrouter`
(`src/fastapi_crudrouter/core/sqlalchemy.py`).

The adapter is embedded shallowly:

* a backend row (an ORM instance / a pydantic `model.dict()`) is an
  association list from field names to values;
* the ORM model class (`self.db_model`) is a `ModelType`: its primary-key
  column name (`self._pk`) and the set of attribute names its instances
  carry (used for the `hasattr` check in `_update`);
* a SQLAlchemy `Session` is a pair of row lists — the committed database
  state and the session's working view — plus a flag recording whether a
  transaction is open.  `add`/`setattr`/`delete` mutate the working view
  and open a transaction; `commit` atomically publishes the working view
  unless the backend's integrity check rejects it (an `IntegrityError`),
  and `rollback` restores the committed state and closes the transaction;
* each route factory (`_get_all`, `_get_one`, `_create`, `_update`,
  `_delete_one`, `_delete_all`) of `SQLAlchemyCRUDRouter` and of
  `SQLAlchemyAsyncCRUDRouter` becomes a pure function from the session
  state to a result (`Except RouteErr`) and the final session state.
-/

/-- A field (column / attribute) name. -/
abbrev Col := String

/-- A field value.  Primary keys are ordered by `≤` on `Int`
(`order_by` in `_get_all`). -/
abbrev Value := Int

/-- A row: the fields of one ORM instance, as an association list
(also the shape of a pydantic `model.dict()` payload). -/
abbrev Record := List (Col × Value)

/-- The ORM model class `self.db_model`: its primary-key column name
`self._pk = db_model.__table__.primary_key.columns.keys()[0]` and the
attribute names its instances support (`hasattr` in `_update`). -/
structure ModelType where
  pk : Col
  columns : List Col
deriving DecidableEq, Repr

/-- `getattr r k` on a row: the value stored under field `k`, if any. -/
def getField (k : Col) : Record → Option Value
  | [] => none
  | (k', v) :: r => if k' = k then some v else getField k r

/-- `setattr r k v` on a row: overwrite the binding of `k` (append it when
the row has no such binding). -/
def setField (k : Col) (v : Value) : Record → Record
  | [] => [(k, v)]
  | (k', v') :: r => if k' = k then (k, v) :: r else (k', v') :: setField k v r

/-- The primary-key value of a row (rows produced by the adapter always
carry the primary-key field; `0` is a junk default). -/
def pkVal (m : ModelType) (r : Record) : Value :=
  (getField m.pk r).getD 0

/-- The ordering used by `_get_all`'s `order_by(getattr(self.db_model,
self._pk))`: ascending primary key. -/
def pkLe (m : ModelType) (a b : Record) : Prop :=
  pkVal m a ≤ pkVal m b

instance (m : ModelType) : DecidableRel (pkLe m) :=
  fun a b => inferInstanceAs (Decidable (pkVal m a ≤ pkVal m b))

instance (m : ModelType) : IsTotal Record (pkLe m) :=
  ⟨fun a b => Int.le_total (pkVal m a) (pkVal m b)⟩

instance (m : ModelType) : IsTrans Record (pkLe m) :=
  ⟨fun _ _ _ => Int.le_trans⟩

/-- `ORDER BY pk ASC` over a set of rows (a stable ascending sort). -/
def sortByPk (m : ModelType) (rows : List Record) : List Record :=
  List.insertionSort (pkLe m) rows

/-- `LIMIT`: `none` is SQL's absent `LIMIT` clause (`.limit(None)`),
`some n` caps the result at `n` rows. -/
def takeOpt : Option Nat → List Record → List Record
  | none, l => l
  | some n, l => l.take n

/-- The backend's integrity check, run at `commit`: `true` means the
commit is accepted, `false` means the backend raises `IntegrityError`.
Kept abstract because the adapter only observes the accept/reject signal. -/
abbrev Backend := List Record → Bool

/-- The integrity predicate of a table whose only constraint is
primary-key uniqueness. -/
def pkUnique (m : ModelType) : Backend :=
  fun rows => decide ((rows.map (pkVal m)).Nodup)

/-- A SQLAlchemy `Session`: the committed database state, the session's
working view of it, and whether a transaction is open. -/
structure Session where
  committed : List Record
  working : List Record
  isOpen : Bool
deriving DecidableEq, Repr

/-- `db.add(obj)`: stage a new row (opens a transaction). -/
def Session.add (s : Session) (r : Record) : Session :=
  ⟨s.committed, s.working ++ [r], true⟩

/-- A mutation of the working view (`setattr` on a loaded instance,
`db.delete(obj)`, `query(...).delete()`); opens a transaction. -/
def Session.mutate (s : Session) (f : List Record → List Record) : Session :=
  ⟨s.committed, f s.working, true⟩

/-- `db.commit()`: publish the working view atomically and close the
transaction, or fail (`none` = `IntegrityError` raised) when the backend
rejects it, leaving the session as it was. -/
def Session.commit (back : Backend) (s : Session) : Option Session :=
  if back s.working then some ⟨s.working, s.working, false⟩ else none

/-- `db.rollback()`: discard the working view and close the transaction. -/
def Session.rollback (s : Session) : Session :=
  ⟨s.committed, s.committed, false⟩

/-- The classified outcomes a route can surface. -/
inductive RouteErr where
  /-- `NOT_FOUND` (`HTTPException(404)` re-raised as-is by the routes). -/
  | notFound
  /-- An `HTTPException(code, msg)` raised by a route's `IntegrityError`
  handler — the spec's `Conflict` classification. -/
  | httpConflict (code : Nat) (msg : String)
  /-- An `IntegrityError` that no route handler caught: it propagates to
  the caller unclassified. -/
  | backendFailure
deriving DecidableEq, Repr

/-- Modelled from the spec: `CRUDGenerator._raise`, called by `_update`'s
`IntegrityError` handler, lives in the core module that is not under
`src/`; the spec says update "Fails with `Conflict` under the same
integrity condition as create", whose handler raises
`HTTPException(422, "Key already exists")`. -/
def crudRaise : RouteErr :=
  RouteErr.httpConflict 422 "Key already exists"

namespace SQLAlchemyCRUDRouter

/-- `_get_all`: `db.query(model).order_by(pk).limit(limit).offset(skip)
.all()` — SQL applies `OFFSET skip` before `LIMIT limit`. -/
def get_all (m : ModelType) (s : Session) (skip : Nat) (limit : Option Nat) :
    List Record × Session :=
  (takeOpt limit ((sortByPk m s.working).drop skip), s)

/-- `_get_one`: `db.query(model).get(item_id)`; returns the row whose
primary key equals `item_id` or raises `NOT_FOUND`. -/
def get_one (m : ModelType) (id : Value) (s : Session) :
    Except RouteErr Record × Session :=
  match s.working.find? (fun r => getField m.pk r == some id) with
  | some r => (Except.ok r, s)
  | none => (Except.error RouteErr.notFound, s)

/-- `_create`: build `db_model(**model.dict())`, `add`, `commit`,
`refresh`, return; on `IntegrityError` rollback and raise
`HTTPException(422, "Key already exists")`. -/
def create (back : Backend) (payload : Record) (s : Session) :
    Except RouteErr Record × Session :=
  let s1 := s.add payload
  match s1.commit back with
  | some s2 => (Except.ok payload, s2)
  | none => (Except.error (RouteErr.httpConflict 422 "Key already exists"), s1.rollback)

/-- The `for key, value in model.dict(exclude={self._pk}).items():
if hasattr(db_model, key): setattr(db_model, key, value)` loop of
`_update`. -/
def applyFields (m : ModelType) (payload : Record) (r : Record) : Record :=
  (payload.filter (fun kv => kv.1 ≠ m.pk)).foldl
    (fun acc kv => if kv.1 ∈ m.columns then setField kv.1 kv.2 acc else acc) r

/-- Replace the (first) row whose primary key is `id` — the in-place
`setattr` mutation of the instance `_get_one` loaded. -/
def replaceFirst (m : ModelType) (id : Value) (r' : Record) :
    List Record → List Record
  | [] => []
  | r :: rs =>
    if getField m.pk r == some id then r' :: rs
    else r :: replaceFirst m id r' rs

/-- `_update`: load via `_get_one` (its `NOT_FOUND` propagates — the
handler catches only `IntegrityError`), copy the non-pk payload fields
onto the instance, `commit`, `refresh`, return; on `IntegrityError`
rollback and `self._raise(e)`. -/
def update (m : ModelType) (back : Backend) (id : Value) (payload : Record)
    (s : Session) : Except RouteErr Record × Session :=
  match s.working.find? (fun r => getField m.pk r == some id) with
  | none => (Except.error RouteErr.notFound, s)
  | some r =>
    let r' := applyFields m payload r
    let s1 := s.mutate (replaceFirst m id r')
    match s1.commit back with
    | some s2 => (Except.ok r', s2)
    | none => (Except.error crudRaise, s1.rollback)

/-- Remove the (first) row whose primary key is `id` — `db.delete(obj)`
on the instance `_get_one` loaded. -/
def removeFirst (m : ModelType) (id : Value) : List Record → List Record
  | [] => []
  | r :: rs =>
    if getField m.pk r == some id then rs
    else r :: removeFirst m id rs

/-- `_delete_one`: load via `_get_one` (`NOT_FOUND` propagates),
`db.delete`, `commit`, return the deleted row.  No `try`/`except`: a
failing commit propagates its `IntegrityError` with no rollback. -/
def delete_one (m : ModelType) (back : Backend) (id : Value) (s : Session) :
    Except RouteErr Record × Session :=
  match s.working.find? (fun r => getField m.pk r == some id) with
  | none => (Except.error RouteErr.notFound, s)
  | some r =>
    let s1 := s.mutate (removeFirst m id)
    match s1.commit back with
    | some s2 => (Except.ok r, s2)
    | none => (Except.error RouteErr.backendFailure, s1)

/-- `_delete_all`: `db.query(model).delete()`, `commit`, then return
`_get_all` with `skip=0, limit=None`.  No `try`/`except`: a failing
commit propagates its `IntegrityError` with no rollback. -/
def delete_all (m : ModelType) (back : Backend) (s : Session) :
    Except RouteErr (List Record) × Session :=
  let s1 := s.mutate (fun _ => [])
  match s1.commit back with
  | some s2 => (Except.ok (get_all m s2 0 none).1, s2)
  | none => (Except.error RouteErr.backendFailure, s1)

end SQLAlchemyCRUDRouter

namespace SQLAlchemyAsyncCRUDRouter

/-- Async `_get_all`: `await db.execute(select(model).order_by(pk)
.limit(limit).offset(skip))` then `[it[0] for it in res.all()]` — each
result row is a one-element tuple that the comprehension unwraps. -/
def get_all (m : ModelType) (s : Session) (skip : Nat) (limit : Option Nat) :
    List Record × Session :=
  ((takeOpt limit ((sortByPk m s.working).drop skip)).map (fun it => it), s)

/-- Async `_get_one`: `await db.execute(select(model).where(pk ==
item_id))` then `res.scalar()` — the first matching row, or `None`. -/
def get_one (m : ModelType) (id : Value) (s : Session) :
    Except RouteErr Record × Session :=
  match (s.working.filter (fun r => getField m.pk r == some id)).head? with
  | some r => (Except.ok r, s)
  | none => (Except.error RouteErr.notFound, s)

/-- Async `_create`: same statement sequence as the sync route, with
`await` at each I/O point. -/
def create (back : Backend) (payload : Record) (s : Session) :
    Except RouteErr Record × Session :=
  let s1 := s.add payload
  match s1.commit back with
  | some s2 => (Except.ok payload, s2)
  | none => (Except.error (RouteErr.httpConflict 422 "Key already exists"), s1.rollback)

/-- Async `_update`: loads via the async `_get_one` (`NOT_FOUND`
propagates), applies the same `exclude={pk}` / `hasattr` field copy,
commits, refreshes; on `IntegrityError` rolls back and `self._raise(e)`. -/
def update (m : ModelType) (back : Backend) (id : Value) (payload : Record)
    (s : Session) : Except RouteErr Record × Session :=
  match (s.working.filter (fun r => getField m.pk r == some id)).head? with
  | none => (Except.error RouteErr.notFound, s)
  | some r =>
    let r' := SQLAlchemyCRUDRouter.applyFields m payload r
    let s1 := s.mutate (SQLAlchemyCRUDRouter.replaceFirst m id r')
    match s1.commit back with
    | some s2 => (Except.ok r', s2)
    | none => (Except.error crudRaise, s1.rollback)

/-- Async `_delete_all`: `await db.execute(delete(model))`, commit, then
the async `_get_all` with `skip=0, limit=None`.  No `try`/`except`. -/
def delete_all (m : ModelType) (back : Backend) (s : Session) :
    Except RouteErr (List Record) × Session :=
  let s1 := s.mutate (fun _ => [])
  match s1.commit back with
  | some s2 => (Except.ok (get_all m s2 0 none).1, s2)
  | none => (Except.error RouteErr.backendFailure, s1)

/-- Async `_delete_one`: loads via the async `_get_one` (`NOT_FOUND`
propagates), `await db.delete`, commit, returns the deleted row.  No
`try`/`except`. -/
def delete_one (m : ModelType) (back : Backend) (id : Value) (s : Session) :
    Except RouteErr Record × Session :=
  match (s.working.filter (fun r => getField m.pk r == some id)).head? with
  | none => (Except.error RouteErr.notFound, s)
  | some r =>
    let s1 := s.mutate (SQLAlchemyCRUDRouter.removeFirst m id)
    match s1.commit back with
    | some s2 => (Except.ok r, s2)
    | none => (Except.error RouteErr.backendFailure, s1)

end SQLAlchemyAsyncCRUDRouter

/-- One step of the `_update` field-copy loop. -/
def copyStep (m : ModelType) (acc : Record) (kv : Col × Value) : Record :=
  if kv.1 ∈ m.columns then setField kv.1 kv.2 acc else acc


/-! ### Concrete fixtures used by witnesses and examples -/

/-- A concrete model: primary key `"id"`, one extra column `"name"`. -/
def mEx : ModelType := ⟨"id", ["id", "name"]⟩

/-- A concrete row keyed `i`. -/
def recEx (i : Value) : Record := [("id", i), ("name", 100 + i)]

/-- Five rows keyed 1..5, deliberately stored out of key order. -/
def fiveRows : List Record := [recEx 2, recEx 5, recEx 1, recEx 4, recEx 3]

/-- A fresh session over the five rows. -/
def sEx5 : Session := ⟨fiveRows, fiveRows, false⟩


/-- A backend whose integrity check accepts exactly the one-row states:
deleting the only row then committing raises `IntegrityError` (as a
foreign-key constraint referencing the row would). -/
def keepsOneRow : Backend := fun rows => decide (rows.length = 1)


instance {e a : Type} [DecidableEq e] [DecidableEq a] : DecidableEq (Except e a) :=
  fun x y =>
    match x, y with
    | Except.ok u, Except.ok w =>
      if h : u = w then Decidable.isTrue (h ▸ rfl)
      else Decidable.isFalse (fun hc => h (Except.ok.inj hc))
    | Except.error u, Except.error w =>
      if h : u = w then Decidable.isTrue (h ▸ rfl)
      else Decidable.isFalse (fun hc => h (Except.error.inj hc))
    | Except.ok _, Except.error _ => Decidable.isFalse (fun hc => Except.noConfusion hc)
    | Except.error _, Except.ok _ => Decidable.isFalse (fun hc => Except.noConfusion hc)

/-! ### Helper lemmas -/

theorem getField_setField_self (k : Col) (v : Value) (r : Record) :
    getField k (setField k v r) = some v := by
  induction r with
  | nil => simp [setField, getField]
  | cons kv rest ih =>
    by_cases h : kv.1 = k
    · simp [setField, getField, h]
    · simp [setField, getField, h, ih]

theorem getField_setField_ne (k k' : Col) (v : Value) (r : Record)
    (h : k' ≠ k) : getField k' (setField k v r) = getField k' r := by
  have hkk : k ≠ k' := Ne.symm h
  induction r with
  | nil => simp [setField, getField, hkk]
  | cons kv rest ih =>
    by_cases hk : kv.1 = k
    · simp [setField, getField, hk, hkk]
    · simp [setField, getField, hk, ih]

theorem applyFields_eq_foldl (m : ModelType) (payload r : Record) :
    SQLAlchemyCRUDRouter.applyFields m payload r =
      (payload.filter (fun kv => kv.1 ≠ m.pk)).foldl (copyStep m) r := by
  rfl

theorem foldl_copyStep_not_hit (m : ModelType) (l : List (Col × Value))
    (k : Col) (h : ∀ kv ∈ l, kv.1 ≠ k ∨ kv.1 ∉ m.columns) (r : Record) :
    getField k (l.foldl (copyStep m) r) = getField k r := by
  induction l generalizing r with
  | nil => rfl
  | cons kv rest ih =>
    have hrest : ∀ p ∈ rest, p.1 ≠ k ∨ p.1 ∉ m.columns :=
      fun p hp => h p (List.mem_cons_of_mem _ hp)
    rcases h kv (List.mem_cons_self _ _) with hne | hnc
    · by_cases hc : kv.1 ∈ m.columns
      · rw [List.foldl_cons, ih hrest, copyStep, if_pos hc,
          getField_setField_ne _ _ _ _ hne.symm]
      · rw [List.foldl_cons, ih hrest, copyStep, if_neg hc]
    · rw [List.foldl_cons, ih hrest, copyStep, if_neg hnc]

theorem foldl_copyStep_mem (m : ModelType) (l : List (Col × Value))
    (k : Col) (v : Value) (hmem : (k, v) ∈ l) (hcols : k ∈ m.columns)
    (hnodup : (l.map Prod.fst).Nodup) (r : Record) :
    getField k (l.foldl (copyStep m) r) = some v := by
  induction l generalizing r with
  | nil => cases hmem
  | cons kv rest ih =>
    rcases List.mem_cons.mp hmem with heq | hrest
    · have hknot : k ∉ rest.map Prod.fst := by
        have := (List.nodup_cons.mp hnodup).1
        simpa [← heq] using this
      have hpres : ∀ p ∈ rest, p.1 ≠ k ∨ p.1 ∉ m.columns := by
        intro p hp
        exact Or.inl (fun hpk => hknot (hpk ▸ List.mem_map_of_mem Prod.fst hp))
      rw [List.foldl_cons, foldl_copyStep_not_hit m rest k hpres,
        ← heq, copyStep, if_pos hcols, getField_setField_self]
    · rw [List.foldl_cons]
      exact ih hrest (List.nodup_cons.mp (by simpa using hnodup)).2 _

theorem head_filter_eq_find (p : Record → Bool) (l : List Record) :
    (l.filter p).head? = l.find? p := by
  induction l with
  | nil => rfl
  | cons a l ih => cases h : p a <;> simp [List.filter_cons, List.find?_cons, h, ih]

theorem pkUnique_append_dup (m : ModelType) (l : List Record) (payload r : Record)
    (hr : r ∈ l) (hpk : pkVal m r = pkVal m payload) :
    pkUnique m (l ++ [payload]) = false := by
  have hmem : pkVal m payload ∈ l.map (pkVal m) :=
    hpk ▸ List.mem_map_of_mem (pkVal m) hr
  simp only [pkUnique, decide_eq_false_iff_not, List.map_append, List.map_cons,
    List.map_nil, List.nodup_append]
  intro hcon
  exact hcon.2.2 hmem (List.mem_singleton_self _)

/-! ### Claims -/

/-- Claim C2: for every backend state and pagination request, `_get_all`
returns the stored rows of the session's view sorted by primary key
ascending, starting at offset `skip` and capped at `limit` rows (all rows
when `limit` is unset); it returns the empty sequence (not an error) when
`skip` is at least the number of rows, and it never mutates the session.
With 5 rows keyed 1..5, `skip=3, limit=10` yields the rows keyed 4 and 5,
and `skip=10, limit=5` yields the empty sequence. -/
theorem get_all_paginates (m : ModelType) (s : Session) (skip : Nat)
    (limit : Option Nat) :
    (SQLAlchemyCRUDRouter.get_all m s skip limit).1
        = takeOpt limit ((sortByPk m s.working).drop skip) ∧
    (sortByPk m s.working).Perm s.working ∧
    List.Sorted (pkLe m) (SQLAlchemyCRUDRouter.get_all m s skip limit).1 ∧
    (∀ n, limit = some n →
      (SQLAlchemyCRUDRouter.get_all m s skip limit).1.length ≤ n) ∧
    (s.working.length ≤ skip →
      (SQLAlchemyCRUDRouter.get_all m s skip limit).1 = []) ∧
    (SQLAlchemyCRUDRouter.get_all m s skip limit).2 = s ∧
    (SQLAlchemyCRUDRouter.get_all mEx sEx5 3 (some 10)).1 = [recEx 4, recEx 5] ∧
    (SQLAlchemyCRUDRouter.get_all mEx sEx5 10 (some 5)).1 = [] := by
  have hsub : (SQLAlchemyCRUDRouter.get_all m s skip limit).1.Sublist
      (sortByPk m s.working) := by
    show (takeOpt limit ((sortByPk m s.working).drop skip)).Sublist _
    cases limit with
    | none => exact List.drop_sublist skip _
    | some n =>
      exact (List.take_sublist n _).trans (List.drop_sublist skip _)
  refine ⟨rfl, List.perm_insertionSort (pkLe m) s.working,
    List.Pairwise.sublist hsub (List.sorted_insertionSort (pkLe m) s.working),
    ?_, ?_, rfl, by decide, by decide⟩
  · intro n hn
    subst hn
    exact List.length_take_le n _
  · intro hskip
    have hlen : (sortByPk m s.working).length ≤ skip :=
      (List.perm_insertionSort (pkLe m) s.working).length_eq ▸ hskip
    show takeOpt limit ((sortByPk m s.working).drop skip) = []
    rw [List.drop_eq_nil_of_le hlen]
    cases limit <;> simp [takeOpt]

/-- Witness for C2 at a concrete input: the pagination facts evaluated on
the 5-row fixture, with the conditional conjuncts discharged there. -/
theorem get_all_paginates_witness :
    (SQLAlchemyCRUDRouter.get_all mEx sEx5 3 (some 10)).1
        = takeOpt (some 10) ((sortByPk mEx sEx5.working).drop 3) ∧
    (sortByPk mEx sEx5.working).Perm sEx5.working ∧
    List.Sorted (pkLe mEx) (SQLAlchemyCRUDRouter.get_all mEx sEx5 3 (some 10)).1 ∧
    (∀ n, (some 10 : Option Nat) = some n →
      (SQLAlchemyCRUDRouter.get_all mEx sEx5 3 (some 10)).1.length ≤ n) ∧
    (sEx5.working.length ≤ 3 →
      (SQLAlchemyCRUDRouter.get_all mEx sEx5 3 (some 10)).1 = []) ∧
    (SQLAlchemyCRUDRouter.get_all mEx sEx5 3 (some 10)).2 = sEx5 ∧
    (SQLAlchemyCRUDRouter.get_all mEx sEx5 3 (some 10)).1 = [recEx 4, recEx 5] ∧
    (SQLAlchemyCRUDRouter.get_all mEx sEx5 10 (some 5)).1 = [] :=
  get_all_paginates mEx sEx5 3 (some 10)

/-- Claim C3: `_get_one(id)` either returns a stored row whose primary key
equals `id`, or fails with `NotFound` when no stored row has primary key
`id`; these are the only outcomes, and the session is never mutated. -/
theorem get_one_found_or_not_found (m : ModelType) (id : Value) (s : Session) :
    (SQLAlchemyCRUDRouter.get_one m id s).2 = s ∧
    ((∃ r, (SQLAlchemyCRUDRouter.get_one m id s).1 = Except.ok r ∧
        r ∈ s.working ∧ getField m.pk r = some id) ∨
      ((SQLAlchemyCRUDRouter.get_one m id s).1 = Except.error RouteErr.notFound ∧
        ∀ r ∈ s.working, getField m.pk r ≠ some id)) := by
  unfold SQLAlchemyCRUDRouter.get_one
  cases h : s.working.find? (fun r => getField m.pk r == some id) with
  | some r =>
    have hp := List.find?_some h
    simp only [beq_iff_eq] at hp
    exact ⟨rfl, Or.inl ⟨r, rfl, List.mem_of_find?_eq_some h, hp⟩⟩
  | none =>
    refine ⟨rfl, Or.inr ⟨rfl, fun r hr => ?_⟩⟩
    intro heq
    exact absurd (beq_iff_eq.mpr heq) (List.find?_eq_none.mp h r hr)

/-- Claim C1: when the insert's commit is rejected by the primary-key
uniqueness constraint, `_create` fails with the Conflict exception
(`HTTPException(422, "Key already exists")`), the partial write is rolled
back atomically — the committed state is exactly what it was, the session
is closed — and a subsequent `_get_all` sees only the previously
persisted rows. -/
theorem create_conflict_rolls_back (m : ModelType) (payload : Record)
    (s : Session) (hfresh : s.working = s.committed)
    (hdup : ∃ r ∈ s.committed, pkVal m r = pkVal m payload) :
    (SQLAlchemyCRUDRouter.create (pkUnique m) payload s).1
        = Except.error (RouteErr.httpConflict 422 "Key already exists") ∧
    (SQLAlchemyCRUDRouter.create (pkUnique m) payload s).2
        = ⟨s.committed, s.committed, false⟩ ∧
    (SQLAlchemyCRUDRouter.get_all m
        (SQLAlchemyCRUDRouter.create (pkUnique m) payload s).2 0 none).1
        = sortByPk m s.committed := by
  obtain ⟨r, hr, hpk⟩ := hdup
  have hfail : pkUnique m (s.working ++ [payload]) = false := by
    rw [hfresh]
    exact pkUnique_append_dup m s.committed payload r hr hpk
  refine ⟨?_, ?_, ?_⟩ <;>
    simp [SQLAlchemyCRUDRouter.create, SQLAlchemyCRUDRouter.get_all,
      Session.add, Session.commit, Session.rollback, hfail, takeOpt]

/-- Witness for C1: a second `create` whose payload reuses primary key 1
fails with Conflict and leaves exactly the one previously persisted row,
as observed via `_get_all`. -/
theorem create_conflict_rolls_back_witness :
    (⟨[recEx 1], [recEx 1], false⟩ : Session).working
        = (⟨[recEx 1], [recEx 1], false⟩ : Session).committed ∧
    (∃ r ∈ (⟨[recEx 1], [recEx 1], false⟩ : Session).committed,
        pkVal mEx r = pkVal mEx [("id", 1), ("name", 200)]) ∧
    ((SQLAlchemyCRUDRouter.create (pkUnique mEx) [("id", 1), ("name", 200)]
        ⟨[recEx 1], [recEx 1], false⟩).1
        = Except.error (RouteErr.httpConflict 422 "Key already exists") ∧
      (SQLAlchemyCRUDRouter.create (pkUnique mEx) [("id", 1), ("name", 200)]
        ⟨[recEx 1], [recEx 1], false⟩).2
        = ⟨[recEx 1], [recEx 1], false⟩ ∧
      (SQLAlchemyCRUDRouter.get_all mEx
        (SQLAlchemyCRUDRouter.create (pkUnique mEx) [("id", 1), ("name", 200)]
          ⟨[recEx 1], [recEx 1], false⟩).2 0 none).1
        = sortByPk mEx [recEx 1]) :=
  ⟨rfl, by decide,
    create_conflict_rolls_back mEx [("id", 1), ("name", 200)]
      ⟨[recEx 1], [recEx 1], false⟩ rfl (by decide)⟩

/-- Claim C4: for each of the six operations, the blocking router
(`SQLAlchemyCRUDRouter`) and the non-blocking router
(`SQLAlchemyAsyncCRUDRouter`) compute the identical outcome — the same
result or error classification and the same final session state — on
every backend state and every input. -/
theorem sync_async_agree (m : ModelType) (back : Backend) (id : Value)
    (payload : Record) (s : Session) (skip : Nat) (limit : Option Nat) :
    SQLAlchemyCRUDRouter.get_all m s skip limit
        = SQLAlchemyAsyncCRUDRouter.get_all m s skip limit ∧
    SQLAlchemyCRUDRouter.get_one m id s
        = SQLAlchemyAsyncCRUDRouter.get_one m id s ∧
    SQLAlchemyCRUDRouter.create back payload s
        = SQLAlchemyAsyncCRUDRouter.create back payload s ∧
    SQLAlchemyCRUDRouter.update m back id payload s
        = SQLAlchemyAsyncCRUDRouter.update m back id payload s ∧
    SQLAlchemyCRUDRouter.delete_one m back id s
        = SQLAlchemyAsyncCRUDRouter.delete_one m back id s ∧
    SQLAlchemyCRUDRouter.delete_all m back s
        = SQLAlchemyAsyncCRUDRouter.delete_all m back s := by
  refine ⟨?_, ?_, rfl, ?_, ?_, ?_⟩
  · simp [SQLAlchemyCRUDRouter.get_all, SQLAlchemyAsyncCRUDRouter.get_all]
  · rw [SQLAlchemyCRUDRouter.get_one, SQLAlchemyAsyncCRUDRouter.get_one,
      head_filter_eq_find]
  · rw [SQLAlchemyCRUDRouter.update, SQLAlchemyAsyncCRUDRouter.update,
      head_filter_eq_find]
  · rw [SQLAlchemyCRUDRouter.delete_one, SQLAlchemyAsyncCRUDRouter.delete_one,
      head_filter_eq_find]
  · simp [SQLAlchemyCRUDRouter.delete_all, SQLAlchemyAsyncCRUDRouter.delete_all,
      SQLAlchemyCRUDRouter.get_all, SQLAlchemyAsyncCRUDRouter.get_all]

/-- Claim C5: the `exclude={self._pk}` in `_update`'s field copy keeps the
primary key out of the written fields: the copy never changes a row's
primary-key field, and a successful update returns a row whose primary
key is still the path parameter's `id` — the body cannot change it. -/
theorem update_never_writes_pk (m : ModelType) (back : Backend) (id : Value)
    (payload : Record) (s : Session) :
    (∀ r, getField m.pk (SQLAlchemyCRUDRouter.applyFields m payload r)
        = getField m.pk r) ∧
    (∀ r', (SQLAlchemyCRUDRouter.update m back id payload s).1 = Except.ok r' →
      getField m.pk r' = some id) := by
  have hpres : ∀ r, getField m.pk (SQLAlchemyCRUDRouter.applyFields m payload r)
      = getField m.pk r := by
    intro r
    rw [applyFields_eq_foldl]
    refine foldl_copyStep_not_hit m _ m.pk (fun kv hkv => Or.inl ?_) r
    have := List.of_mem_filter hkv
    simpa using this
  refine ⟨hpres, fun r' hr' => ?_⟩
  unfold SQLAlchemyCRUDRouter.update at hr'
  cases hfind : s.working.find? (fun t => getField m.pk t == some id) with
  | none => rw [hfind] at hr'; cases hr'
  | some r =>
    rw [hfind] at hr'
    dsimp only at hr'
    have hpk : getField m.pk r = some id := by
      have hp := List.find?_some hfind
      simp only [beq_iff_eq] at hp
      exact hp
    cases hcommit : Session.commit back
        (s.mutate (SQLAlchemyCRUDRouter.replaceFirst m id
          (SQLAlchemyCRUDRouter.applyFields m payload r))) with
    | some s2 =>
      rw [hcommit] at hr'
      simp only [Except.ok.injEq] at hr'
      rw [← hr', hpres, hpk]
    | none => rw [hcommit] at hr'; cases hr'

/-- Witness for C5 at a concrete input: a payload that tries to set the
primary key to 99 cannot move it. -/
theorem update_never_writes_pk_witness :
    (∀ r, getField mEx.pk
        (SQLAlchemyCRUDRouter.applyFields mEx [("id", 99), ("name", 7)] r)
        = getField mEx.pk r) ∧
    (∀ r', (SQLAlchemyCRUDRouter.update mEx (pkUnique mEx) 3
        [("id", 99), ("name", 7)] sEx5).1 = Except.ok r' →
      getField mEx.pk r' = some 3) :=
  update_never_writes_pk mEx (pkUnique mEx) 3 [("id", 99), ("name", 7)] sEx5

/-- Claim C6: on an existing row, `_update` succeeds (when the backend
accepts the commit), applies every non-primary-key payload field the row
type supports, silently skips any field name the row type does not
support, leaves every field not named in the payload at its prior value,
and returns the refreshed row. -/
theorem update_applies_known_skips_unknown (m : ModelType) (back : Backend)
    (id : Value) (payload r : Record) (s : Session)
    (hfind : s.working.find? (fun t => getField m.pk t == some id) = some r)
    (hnodup : (payload.map Prod.fst).Nodup)
    (hok : back (SQLAlchemyCRUDRouter.replaceFirst m id
        (SQLAlchemyCRUDRouter.applyFields m payload r) s.working) = true) :
    (SQLAlchemyCRUDRouter.update m back id payload s).1
        = Except.ok (SQLAlchemyCRUDRouter.applyFields m payload r) ∧
    (∀ k v, (k, v) ∈ payload → k ≠ m.pk → k ∈ m.columns →
      getField k (SQLAlchemyCRUDRouter.applyFields m payload r) = some v) ∧
    (∀ k, k ∉ m.columns →
      getField k (SQLAlchemyCRUDRouter.applyFields m payload r) = getField k r) ∧
    (∀ k, k ∉ payload.map Prod.fst →
      getField k (SQLAlchemyCRUDRouter.applyFields m payload r) = getField k r) := by
  refine ⟨?_, ?_, ?_, ?_⟩
  · simp only [SQLAlchemyCRUDRouter.update, hfind, Session.mutate, Session.commit,
      hok, if_true]
  · intro k v hkv hne hcols
    rw [applyFields_eq_foldl]
    refine foldl_copyStep_mem m _ k v ?_ hcols ?_ r
    · exact List.mem_filter.mpr ⟨hkv, by simpa using hne⟩
    · exact ((List.filter_sublist payload).map Prod.fst).nodup hnodup
  · intro k hk
    rw [applyFields_eq_foldl]
    refine foldl_copyStep_not_hit m _ k (fun kv hkv => ?_) r
    by_cases hkk : kv.1 = k
    · exact Or.inr (by rw [hkk]; exact hk)
    · exact Or.inl hkk
  · intro k hk
    rw [applyFields_eq_foldl]
    refine foldl_copyStep_not_hit m _ k (fun kv hkv => Or.inl fun heq => ?_) r
    exact hk (heq ▸ List.mem_map_of_mem Prod.fst (List.mem_of_mem_filter hkv))

/-- Witness for C6 at a concrete input: updating row 3 of the 5-row
fixture with a payload holding a recognized field (`name`), an attempt at
the key (`id`), and an unsupported field (`bogus`). -/
theorem update_applies_known_skips_unknown_witness :
    (sEx5.working.find? (fun t => getField mEx.pk t == some 3) = some (recEx 3)) ∧
    (([("id", (99 : Value)), ("name", 7), ("bogus", 1)].map Prod.fst).Nodup) ∧
    (pkUnique mEx (SQLAlchemyCRUDRouter.replaceFirst mEx 3
        (SQLAlchemyCRUDRouter.applyFields mEx
          [("id", 99), ("name", 7), ("bogus", 1)] (recEx 3)) sEx5.working) = true) ∧
    ((SQLAlchemyCRUDRouter.update mEx (pkUnique mEx) 3
        [("id", 99), ("name", 7), ("bogus", 1)] sEx5).1
        = Except.ok (SQLAlchemyCRUDRouter.applyFields mEx
            [("id", 99), ("name", 7), ("bogus", 1)] (recEx 3)) ∧
      (∀ k v, (k, v) ∈ [("id", (99 : Value)), ("name", 7), ("bogus", 1)] →
        k ≠ mEx.pk → k ∈ mEx.columns →
        getField k (SQLAlchemyCRUDRouter.applyFields mEx
          [("id", 99), ("name", 7), ("bogus", 1)] (recEx 3)) = some v) ∧
      (∀ k, k ∉ mEx.columns →
        getField k (SQLAlchemyCRUDRouter.applyFields mEx
          [("id", 99), ("name", 7), ("bogus", 1)] (recEx 3))
          = getField k (recEx 3)) ∧
      (∀ k, k ∉ ([("id", (99 : Value)), ("name", 7), ("bogus", 1)].map Prod.fst) →
        getField k (SQLAlchemyCRUDRouter.applyFields mEx
          [("id", 99), ("name", 7), ("bogus", 1)] (recEx 3))
          = getField k (recEx 3))) :=
  ⟨by decide, by decide, by decide,
    update_applies_known_skips_unknown mEx (pkUnique mEx) 3
      [("id", 99), ("name", 7), ("bogus", 1)] (recEx 3) sEx5
      (by decide) (by decide) (by decide)⟩

/-- Claim C7: when no stored row has primary key `id`, `_get_one`,
`_update` and `_delete_one` (in both router variants) all fail with the
propagated `NotFound` and return the session exactly as it was — the
collection's size and contents are untouched. -/
theorem missing_id_not_found (m : ModelType) (back : Backend) (id : Value)
    (payload : Record) (s : Session)
    (habs : ∀ r ∈ s.working, getField m.pk r ≠ some id) :
    SQLAlchemyCRUDRouter.get_one m id s = (Except.error RouteErr.notFound, s) ∧
    SQLAlchemyCRUDRouter.update m back id payload s
        = (Except.error RouteErr.notFound, s) ∧
    SQLAlchemyCRUDRouter.delete_one m back id s
        = (Except.error RouteErr.notFound, s) ∧
    SQLAlchemyAsyncCRUDRouter.get_one m id s
        = (Except.error RouteErr.notFound, s) ∧
    SQLAlchemyAsyncCRUDRouter.update m back id payload s
        = (Except.error RouteErr.notFound, s) ∧
    SQLAlchemyAsyncCRUDRouter.delete_one m back id s
        = (Except.error RouteErr.notFound, s) := by
  have hnone : s.working.find? (fun r => getField m.pk r == some id) = none := by
    refine List.find?_eq_none.mpr (fun r hr => ?_)
    simpa using habs r hr
  refine ⟨?_, ?_, ?_, ?_, ?_, ?_⟩
  · simp [SQLAlchemyCRUDRouter.get_one, hnone]
  · simp [SQLAlchemyCRUDRouter.update, hnone]
  · simp [SQLAlchemyCRUDRouter.delete_one, hnone]
  · rw [SQLAlchemyAsyncCRUDRouter.get_one, head_filter_eq_find]
    simp [hnone]
  · rw [SQLAlchemyAsyncCRUDRouter.update, head_filter_eq_find]
    simp [hnone]
  · rw [SQLAlchemyAsyncCRUDRouter.delete_one, head_filter_eq_find]
    simp [hnone]

/-- Witness for C7 at a concrete input: id 42 was never inserted in the
5-row fixture, so all three lookups fail with `NotFound` and the session
is unchanged. -/
theorem missing_id_not_found_witness :
    (∀ r ∈ sEx5.working, getField mEx.pk r ≠ some 42) ∧
    (SQLAlchemyCRUDRouter.get_one mEx 42 sEx5
        = (Except.error RouteErr.notFound, sEx5) ∧
      SQLAlchemyCRUDRouter.update mEx (pkUnique mEx) 42 [("name", 7)] sEx5
        = (Except.error RouteErr.notFound, sEx5) ∧
      SQLAlchemyCRUDRouter.delete_one mEx (pkUnique mEx) 42 sEx5
        = (Except.error RouteErr.notFound, sEx5) ∧
      SQLAlchemyAsyncCRUDRouter.get_one mEx 42 sEx5
        = (Except.error RouteErr.notFound, sEx5) ∧
      SQLAlchemyAsyncCRUDRouter.update mEx (pkUnique mEx) 42 [("name", 7)] sEx5
        = (Except.error RouteErr.notFound, sEx5) ∧
      SQLAlchemyAsyncCRUDRouter.delete_one mEx (pkUnique mEx) 42 sEx5
        = (Except.error RouteErr.notFound, sEx5)) :=
  ⟨by decide,
    missing_id_not_found mEx (pkUnique mEx) 42 [("name", 7)] sEx5 (by decide)⟩

/-- Claim C8: `_delete_all` clears the collection in one atomic commit
(provided the backend accepts the empty state, as the uniqueness
constraint always does) and returns the re-listed collection with no
limit, which is empty — in both router variants. -/
theorem delete_all_then_list_empty (m : ModelType) (back : Backend)
    (s : Session) (hempty : back [] = true) :
    SQLAlchemyCRUDRouter.delete_all m back s
        = (Except.ok [], ⟨[], [], false⟩) ∧
    SQLAlchemyAsyncCRUDRouter.delete_all m back s
        = (Except.ok [], ⟨[], [], false⟩) ∧
    pkUnique m [] = true := by
  refine ⟨?_, ?_, by simp [pkUnique]⟩ <;>
    simp [SQLAlchemyCRUDRouter.delete_all, SQLAlchemyAsyncCRUDRouter.delete_all,
      SQLAlchemyCRUDRouter.get_all, SQLAlchemyAsyncCRUDRouter.get_all,
      Session.mutate, Session.commit, hempty, sortByPk, takeOpt,
      List.insertionSort]

/-- Witness for C8 at a concrete input: deleting all five fixture rows
under the uniqueness backend, then listing, yields the empty sequence. -/
theorem delete_all_then_list_empty_witness :
    pkUnique mEx [] = true ∧
    (SQLAlchemyCRUDRouter.delete_all mEx (pkUnique mEx) sEx5
        = (Except.ok [], ⟨[], [], false⟩) ∧
      SQLAlchemyAsyncCRUDRouter.delete_all mEx (pkUnique mEx) sEx5
        = (Except.ok [], ⟨[], [], false⟩) ∧
      pkUnique mEx [] = true) :=
  ⟨by decide, delete_all_then_list_empty mEx (pkUnique mEx) sEx5 (by decide)⟩


/-- Counterexample to C9 as stated: on this concrete input `_delete_one`
surfaces a backend failure — an exit path of a write operation — yet the
resulting session still has an open transaction: the adapter did not
roll back before surfacing the error. -/
theorem delete_one_leaves_txn_open_cex :
    (SQLAlchemyCRUDRouter.delete_one mEx keepsOneRow 1
        ⟨[recEx 1], [recEx 1], false⟩).1 = Except.error RouteErr.backendFailure ∧
    (SQLAlchemyCRUDRouter.delete_one mEx keepsOneRow 1
        ⟨[recEx 1], [recEx 1], false⟩).2.isOpen = true := by
  decide

/-- Claim C9 amended: `_create` and `_update` close the transaction on
every exit path (commit on success, rollback on `IntegrityError`, and the
`NotFound` path opens none), but `_delete_one` and `_delete_all` close it
only on their success and `NotFound` paths — when their commit fails the
error surfaces with the transaction still open, and exactly then. -/
theorem write_paths_txn_discipline (m : ModelType) (back : Backend)
    (id : Value) (payload : Record) (s : Session)
    (hclosed : s.isOpen = false) :
    (SQLAlchemyCRUDRouter.create back payload s).2.isOpen = false ∧
    (SQLAlchemyCRUDRouter.update m back id payload s).2.isOpen = false ∧
    ((SQLAlchemyCRUDRouter.delete_one m back id s).2.isOpen = true ↔
      (SQLAlchemyCRUDRouter.delete_one m back id s).1
        = Except.error RouteErr.backendFailure) ∧
    ((SQLAlchemyCRUDRouter.delete_all m back s).2.isOpen = true ↔
      (SQLAlchemyCRUDRouter.delete_all m back s).1
        = Except.error RouteErr.backendFailure) := by
  refine ⟨?_, ?_, ?_, ?_⟩
  · cases hb : back (s.working ++ [payload]) <;>
      simp [SQLAlchemyCRUDRouter.create, Session.add, Session.commit,
        Session.rollback, hb]
  · cases hfind : s.working.find? (fun t => getField m.pk t == some id) with
    | none => simp [SQLAlchemyCRUDRouter.update, hfind, hclosed]
    | some r =>
      cases hb : back (SQLAlchemyCRUDRouter.replaceFirst m id
          (SQLAlchemyCRUDRouter.applyFields m payload r) s.working) <;>
        simp [SQLAlchemyCRUDRouter.update, hfind, Session.mutate,
          Session.commit, Session.rollback, hb]
  · cases hfind : s.working.find? (fun t => getField m.pk t == some id) with
    | none => simp [SQLAlchemyCRUDRouter.delete_one, hfind, hclosed]
    | some r =>
      cases hb : back (SQLAlchemyCRUDRouter.removeFirst m id s.working) <;>
        simp [SQLAlchemyCRUDRouter.delete_one, hfind, Session.mutate,
          Session.commit, hb]
  · cases hb : back ([] : List Record) <;>
      simp [SQLAlchemyCRUDRouter.delete_all, Session.mutate, Session.commit, hb]

/-- Witness for the amended C9 at a concrete input. -/
theorem write_paths_txn_discipline_witness :
    sEx5.isOpen = false ∧
    ((SQLAlchemyCRUDRouter.create (pkUnique mEx) (recEx 9) sEx5).2.isOpen = false ∧
      (SQLAlchemyCRUDRouter.update mEx (pkUnique mEx) 3 [("name", 7)]
        sEx5).2.isOpen = false ∧
      ((SQLAlchemyCRUDRouter.delete_one mEx (pkUnique mEx) 3 sEx5).2.isOpen = true ↔
        (SQLAlchemyCRUDRouter.delete_one mEx (pkUnique mEx) 3 sEx5).1
          = Except.error RouteErr.backendFailure) ∧
      ((SQLAlchemyCRUDRouter.delete_all mEx (pkUnique mEx) sEx5).2.isOpen = true ↔
        (SQLAlchemyCRUDRouter.delete_all mEx (pkUnique mEx) sEx5).1
          = Except.error RouteErr.backendFailure)) :=
  ⟨rfl, write_paths_txn_discipline mEx (pkUnique mEx) 3 [("name", 7)] sEx5 rfl⟩

/-- Claim C10: an integrity failure at `_delete_one`'s or `_delete_all`'s
commit — in either router variant — surfaces as the raw, unclassified
backend error (never the `HTTPException` Conflict classification and not
`NotFound`), with no rollback: the resulting session keeps the mutated
working view and the transaction open. -/
theorem delete_integrity_unclassified (m : ModelType) (back : Backend)
    (id : Value) (r : Record) (s : Session)
    (hfind : s.working.find? (fun t => getField m.pk t == some id) = some r)
    (hfaildel : back (SQLAlchemyCRUDRouter.removeFirst m id s.working) = false)
    (hfailall : back ([] : List Record) = false) :
    SQLAlchemyCRUDRouter.delete_one m back id s
        = (Except.error RouteErr.backendFailure,
            ⟨s.committed, SQLAlchemyCRUDRouter.removeFirst m id s.working, true⟩) ∧
    SQLAlchemyCRUDRouter.delete_all m back s
        = (Except.error RouteErr.backendFailure, ⟨s.committed, [], true⟩) ∧
    SQLAlchemyAsyncCRUDRouter.delete_one m back id s
        = (Except.error RouteErr.backendFailure,
            ⟨s.committed, SQLAlchemyCRUDRouter.removeFirst m id s.working, true⟩) ∧
    SQLAlchemyAsyncCRUDRouter.delete_all m back s
        = (Except.error RouteErr.backendFailure, ⟨s.committed, [], true⟩) ∧
    (∀ c msg, RouteErr.backendFailure ≠ RouteErr.httpConflict c msg) ∧
    RouteErr.backendFailure ≠ RouteErr.notFound := by
  refine ⟨?_, ?_, ?_, ?_, fun c msg => by simp, by simp⟩
  · simp [SQLAlchemyCRUDRouter.delete_one, hfind, Session.mutate,
      Session.commit, hfaildel]
  · simp [SQLAlchemyCRUDRouter.delete_all, Session.mutate, Session.commit,
      hfailall]
  · rw [SQLAlchemyAsyncCRUDRouter.delete_one, head_filter_eq_find]
    simp [hfind, Session.mutate, Session.commit, hfaildel]
  · simp [SQLAlchemyAsyncCRUDRouter.delete_all, Session.mutate, Session.commit,
      hfailall]

/-- Witness for C10 at a concrete input: under `keepsOneRow`, deleting the
single stored row makes the commit's integrity check fail, and both
delete routes surface the unclassified backend error with the
transaction open. -/
theorem delete_integrity_unclassified_witness :
    ((⟨[recEx 1], [recEx 1], false⟩ : Session).working.find?
        (fun t => getField mEx.pk t == some 1) = some (recEx 1)) ∧
    (keepsOneRow (SQLAlchemyCRUDRouter.removeFirst mEx 1
        (⟨[recEx 1], [recEx 1], false⟩ : Session).working) = false) ∧
    (keepsOneRow ([] : List Record) = false) ∧
    (SQLAlchemyCRUDRouter.delete_one mEx keepsOneRow 1 ⟨[recEx 1], [recEx 1], false⟩
        = (Except.error RouteErr.backendFailure,
            ⟨[recEx 1], SQLAlchemyCRUDRouter.removeFirst mEx 1
              (⟨[recEx 1], [recEx 1], false⟩ : Session).working, true⟩) ∧
      SQLAlchemyCRUDRouter.delete_all mEx keepsOneRow ⟨[recEx 1], [recEx 1], false⟩
        = (Except.error RouteErr.backendFailure, ⟨[recEx 1], [], true⟩) ∧
      SQLAlchemyAsyncCRUDRouter.delete_one mEx keepsOneRow 1
          ⟨[recEx 1], [recEx 1], false⟩
        = (Except.error RouteErr.backendFailure,
            ⟨[recEx 1], SQLAlchemyCRUDRouter.removeFirst mEx 1
              (⟨[recEx 1], [recEx 1], false⟩ : Session).working, true⟩) ∧
      SQLAlchemyAsyncCRUDRouter.delete_all mEx keepsOneRow
          ⟨[recEx 1], [recEx 1], false⟩
        = (Except.error RouteErr.backendFailure, ⟨[recEx 1], [], true⟩) ∧
      (∀ c msg, RouteErr.backendFailure ≠ RouteErr.httpConflict c msg) ∧
      RouteErr.backendFailure ≠ RouteErr.notFound) :=
  ⟨by decide, by decide, by decide,
    delete_integrity_unclassified mEx keepsOneRow 1 (recEx 1)
      ⟨[recEx 1], [recEx 1], false⟩ (by decide) (by decide) (by decide)⟩
